import Mathlib

/-!
Verification development for the aiProof repository.

The repository consists of two short scripts:

* `src/aiStudent/agent.py` — loads two JSON files describing course tasks
  and course information, builds an instruction prompt, and drives an
  external agent SDK session, exiting with an appropriate code.
* `scripts/pdf_restructure.py` — asks an external model for chapter
  boundaries of a PDF and then splits the PDF into one file per chapter.

The development shallowly embeds the Python code: JSON values become an
inductive type, Python dictionary/list operations become functions into
`Except` (a `.error` models a raised Python exception), file-system and
network effects become explicit environment parameters, and the observable
behaviour of each script (prints with their output stream, exit code,
files written) is computed by a pure function.
-/

namespace AiProof

/-- JSON values as produced by Python `json.load` / `json.loads`.  Numbers
are modelled as integers: every number appearing in the repository's data
(task counts, page numbers, chapter numbers) is integral, and no claim
concerns floating-point data. -/
inductive JVal where
  | jnull
  | jbool (b : Bool)
  | jnum (n : Int)
  | jstr (s : String)
  | jlist (xs : List JVal)
  | jobj (fields : List (String × JVal))

/-- Python `d.get(key, default)` on a dictionary.  On a non-dictionary the
attribute access raises (`AttributeError`), modelled as `.error`. -/
def pyDictGet (v : JVal) (key : String) (dflt : JVal) : Except String JVal :=
  match v with
  | .jobj fields => .ok ((fields.lookup key).getD dflt)
  | _ => .error "AttributeError: get"

/-- Python subscript `d[key]` on a dictionary: raises `KeyError` when the
key is absent and `TypeError` when the value is not a dictionary. -/
def pyDictItem (v : JVal) (key : String) : Except String JVal :=
  match v with
  | .jobj fields =>
    match fields.lookup key with
    | some x => .ok x
    | none => .error ("KeyError: " ++ key)
  | _ => .error "TypeError: not subscriptable"

/-- Python `len(v)`: defined on strings, lists and dictionaries, raises
`TypeError` otherwise. -/
def pyLen : JVal → Except String Nat
  | .jstr s => .ok s.length
  | .jlist xs => .ok xs.length
  | .jobj fields => .ok fields.length
  | _ => .error "TypeError: len"

/-- Python iteration `for x in v`: a string yields its one-character
strings, a list its elements, a dictionary its keys; other values raise
`TypeError`. -/
def pyIter : JVal → Except String (List JVal)
  | .jstr s => .ok (s.toList.map (fun c => .jstr (String.mk [c])))
  | .jlist xs => .ok xs
  | .jobj fields => .ok (fields.map (fun p => .jstr p.1))
  | _ => .error "TypeError: not iterable"

/-- Python truthiness, as used by `if not chapters:`. -/
def pyTruthy : JVal → Bool
  | .jnull => false
  | .jbool b => b
  | .jnum n => n != 0
  | .jstr s => s != ""
  | .jlist xs => !xs.isEmpty
  | .jobj fields => !fields.isEmpty

/-- Python `str(v)` as used inside an f-string.  Scalar values are
rendered exactly; the rendering of containers is abstracted (no claim of
this development formats a container value into a prompt). -/
def pyStr : JVal → String
  | .jnull => "None"
  | .jbool true => "True"
  | .jbool false => "False"
  | .jnum n => toString n
  | .jstr s => s
  | .jlist _ => "[...]"
  | .jobj _ => "..."

/-- Extraction of an integer operand; any other value raises `TypeError`
when the Python code applies integer arithmetic or `d`-formatting to it. -/
def pyInt : JVal → Except String Int
  | .jnum n => .ok n
  | _ => .error "TypeError: int expected"

/-! ## agent.py — prompt construction (`construct_autonomous_instruction`) -/

/-- Embedding of `tasks_data.get("tasks", [])` from
`construct_autonomous_instruction`. -/
def tasksList (tasks_data : JVal) : Except String JVal :=
  pyDictGet tasks_data "tasks" (.jlist [])

/-- Embedding of `len(tasks_data.get("tasks", []))`. -/
def totalTasksOf (tasks_data : JVal) : Except String Nat := do
  let v ← tasksList tasks_data
  pyLen v

/-- Embedding of `t.get("status")` on a task record. -/
def statusOf (t : JVal) : Except String JVal :=
  pyDictGet t "status" .jnull

/-- Test `t.get("status") == "pending"` applied to the retrieved status
value. -/
def isPendingV : JVal → Bool
  | .jstr s => s = "pending"
  | _ => false

/-- Embedding of the list comprehension
`[t for t in tasks if t.get("status") == "pending"]` over an already
iterated task list. -/
def filterPending : List JVal → Except String (List JVal)
  | [] => .ok []
  | t :: ts => do
    let s ← statusOf t
    let rest ← filterPending ts
    .ok (if isPendingV s then t :: rest else rest)

/-- Embedding of the `pending_tasks` computation of
`construct_autonomous_instruction`. -/
def pendingTasksOf (tasks_data : JVal) : Except String (List JVal) := do
  let v ← tasksList tasks_data
  let xs ← pyIter v
  filterPending xs

/-- Text of the prompt template before the task-count sentence. -/
def promptHead (course_name : String) : String :=
  "I need you to autonomously complete all course tasks for " ++ course_name ++
  ".\n\nYou have access to:\n- Course information and context\n- Knowledge base materials in knowledge_base/ folder\n- All task details in todo/course_tasks.json\n\n"

/-- Text of the prompt template after the task-count sentence. -/
def promptTail : String :=
  "\n\nPlease begin working autonomously:\n1. Review all tasks and decide on your approach\n2. Start with the first task\n3. Use the knowledge base as needed\n4. Complete each task fully before moving to the next\n5. Update task status in course_tasks.json as you progress\n6. Save outputs to appropriate locations\n\nWork independently and make your own decisions. Begin now."

/-- The sentence of the prompt carrying the two task counts. -/
def countsSentence (total_tasks pending_count : Nat) : String :=
  "There are " ++ toString total_tasks ++ " total tasks, with " ++
  toString pending_count ++ " currently pending."

/-- Full prompt text produced by the f-string of
`construct_autonomous_instruction`. -/
def promptText (course_name : String) (total_tasks pending_count : Nat) : String :=
  promptHead course_name ++ countsSentence total_tasks pending_count ++ promptTail

/-- Embedding of `construct_autonomous_instruction(tasks_data, course_info)`.
Field accesses follow the source order: `course_name`, `total_tasks`,
`pending_tasks`, then the f-string. -/
def construct_autonomous_instruction (tasks_data course_info : JVal) :
    Except String String := do
  let cn ← pyDictGet course_info "course_name" (.jstr "Unknown Course")
  let total ← totalTasksOf tasks_data
  let pending ← pendingTasksOf tasks_data
  .ok (promptText (pyStr cn) total pending.length)

/-! ## Specification-side count definitions

These two definitions follow the words of the claims — "the length of the
tasks list, or 0 if the key is absent" and "the number of entries in that
list whose status field equals pending" — to be compared against the
counts the code embeds in the prompt. -/

/-- Specification-side total task count: the length of the "tasks" list,
or 0 if the key is absent. -/
def specTotalTasks : JVal → Nat
  | .jobj fields =>
    match fields.lookup "tasks" with
    | some (.jlist xs) => xs.length
    | _ => 0
  | _ => 0

/-- Specification-side test: the record's "status" field equals
"pending". -/
def taskStatusPending : JVal → Bool
  | .jobj fields =>
    match fields.lookup "status" with
    | some (.jstr s) => s = "pending"
    | _ => false
  | _ => false

/-- Specification-side pending task count: the number of entries of the
"tasks" list whose "status" field equals "pending". -/
def specPendingCount : JVal → Nat
  | .jobj fields =>
    match fields.lookup "tasks" with
    | some (.jlist xs) => (xs.filter taskStatusPending).length
    | _ => 0
  | _ => 0

/-- A JSON value that is an object (dictionary). -/
def isObjB : JVal → Bool
  | .jobj _ => true
  | _ => false

/-- Well-formed tasks JSON: a dictionary whose "tasks" entry, when
present, is a list of records (dictionaries). -/
def wellFormedTasks : JVal → Bool
  | .jobj fields =>
    match fields.lookup "tasks" with
    | none => true
    | some (.jlist xs) => xs.all isObjB
    | some _ => false
  | _ => false

/-! ### Lemmas about the prompt counts -/

@[simp] lemma ok_bind {α β : Type} (a : α) (f : α → Except String β) :
    (Except.ok a : Except String α) >>= f = f a := rfl

@[simp] lemma error_bind {α β : Type} (e : String) (f : α → Except String β) :
    (Except.error e : Except String α) >>= f = Except.error e := rfl

lemma statusOf_isObj (gs : List (String × JVal)) :
    statusOf (.jobj gs) = .ok ((gs.lookup "status").getD .jnull) := rfl

lemma isPendingV_status (gs : List (String × JVal)) :
    isPendingV ((gs.lookup "status").getD .jnull) = taskStatusPending (.jobj gs) := by
  cases h : gs.lookup "status" with
  | none => simp [taskStatusPending, h, isPendingV]
  | some v => cases v <;> simp [taskStatusPending, h, isPendingV]

lemma filterPending_of_objs (xs : List JVal) (h : xs.all isObjB = true) :
    filterPending xs = .ok (xs.filter taskStatusPending) := by
  induction xs with
  | nil => rfl
  | cons t ts ih =>
    simp only [List.all_cons, Bool.and_eq_true] at h
    obtain ⟨ht, hts⟩ := h
    cases t with
    | jobj gs =>
      simp only [filterPending, statusOf_isObj, ih hts, ok_bind, List.filter_cons,
        isPendingV_status]
    | jnull => simp [isObjB] at ht
    | jbool b => simp [isObjB] at ht
    | jnum n => simp [isObjB] at ht
    | jstr s => simp [isObjB] at ht
    | jlist l => simp [isObjB] at ht

lemma totalTasksOf_wf (td : JVal) (h : wellFormedTasks td = true) :
    totalTasksOf td = .ok (specTotalTasks td) := by
  cases td with
  | jobj fields =>
    unfold totalTasksOf tasksList
    cases hl : fields.lookup "tasks" with
    | none =>
      simp [pyDictGet, hl, pyLen, specTotalTasks]
    | some v =>
      cases v <;>
        simp_all [wellFormedTasks, pyDictGet, hl, pyLen, specTotalTasks]
  | jnull => simp [wellFormedTasks] at h
  | jbool b => simp [wellFormedTasks] at h
  | jnum n => simp [wellFormedTasks] at h
  | jstr s => simp [wellFormedTasks] at h
  | jlist l => simp [wellFormedTasks] at h

lemma pendingTasksOf_wf (td : JVal) (h : wellFormedTasks td = true) :
    ∃ ys : List JVal, pendingTasksOf td = .ok ys ∧ ys.length = specPendingCount td := by
  cases td with
  | jobj fields =>
    unfold pendingTasksOf tasksList
    cases hl : fields.lookup "tasks" with
    | none =>
      refine ⟨[], ?_, ?_⟩
      · simp [pyDictGet, hl, pyIter, filterPending]
      · simp [specPendingCount, hl]
    | some v =>
      cases v with
      | jlist xs =>
        have hall : xs.all isObjB = true := by
          simpa [wellFormedTasks, hl] using h
        refine ⟨xs.filter taskStatusPending, ?_, ?_⟩
        · simp [pyDictGet, hl, pyIter, filterPending_of_objs xs hall]
        · simp [specPendingCount, hl]
      | jnull => simp [wellFormedTasks, hl] at h
      | jbool b => simp [wellFormedTasks, hl] at h
      | jnum n => simp [wellFormedTasks, hl] at h
      | jstr s => simp [wellFormedTasks, hl] at h
      | jobj gs => simp [wellFormedTasks, hl] at h
  | jnull => simp [wellFormedTasks] at h
  | jbool b => simp [wellFormedTasks] at h
  | jnum n => simp [wellFormedTasks] at h
  | jstr s => simp [wellFormedTasks] at h
  | jlist l => simp [wellFormedTasks] at h

lemma filterPending_length_le (xs ys : List JVal) (h : filterPending xs = .ok ys) :
    ys.length ≤ xs.length := by
  induction xs generalizing ys with
  | nil =>
    simp only [filterPending, Except.ok.injEq] at h
    subst h
    simp
  | cons t ts ih =>
    cases hs : statusOf t with
    | error e => simp [filterPending, hs] at h
    | ok s =>
      cases hr : filterPending ts with
      | error e => simp [filterPending, hs, hr] at h
      | ok rest =>
        simp only [filterPending, hs, hr, ok_bind, Except.ok.injEq] at h
        subst h
        cases hp : isPendingV s <;> simp [hp]
        · exact Nat.le_succ_of_le (ih rest hr)
        · exact ih rest hr

lemma pyIter_length (v : JVal) (n : Nat) (xs : List JVal)
    (hl : pyLen v = .ok n) (hi : pyIter v = .ok xs) : xs.length = n := by
  cases v with
  | jstr s =>
    simp only [pyLen, Except.ok.injEq] at hl
    simp only [pyIter, Except.ok.injEq] at hi
    subst hl
    subst hi
    rw [List.length_map]
    rfl
  | jlist l =>
    simp only [pyLen, Except.ok.injEq] at hl
    simp only [pyIter, Except.ok.injEq] at hi
    subst hl
    subst hi
    rfl
  | jobj fs =>
    simp only [pyLen, Except.ok.injEq] at hl
    simp only [pyIter, Except.ok.injEq] at hi
    subst hl
    subst hi
    simp [List.length_map]
  | jnull => simp [pyLen] at hl
  | jbool b => simp [pyLen] at hl
  | jnum m => simp [pyLen] at hl

/-- Sample tasks file content: three task records, one pending. -/
def tdSample : JVal :=
  .jobj [("tasks", .jlist [.jobj [("status", .jstr "pending")],
                           .jobj [("status", .jstr "done")],
                           .jobj []])]

/-- Sample course-information file content. -/
def ciSample : JVal := .jobj [("course_name", .jstr "Systems 101")]

/-- C1: for every well-formed tasks JSON and course-info JSON, the prompt
string returned by `construct_autonomous_instruction` contains the correct
total task count (the length of the "tasks" list, or 0 if the key is
absent) and the correct pending task count (the number of entries whose
"status" field equals "pending"), in the counts sentence of the
template. -/
theorem construct_instruction_reports_correct_counts
    (td ci : JVal) (h1 : wellFormedTasks td = true) (h2 : isObjB ci = true) :
    ∃ pre post : String,
      construct_autonomous_instruction td ci =
        .ok (pre ++ countsSentence (specTotalTasks td) (specPendingCount td) ++ post) := by
  cases ci with
  | jobj gs =>
    obtain ⟨ys, hys, hlen⟩ := pendingTasksOf_wf td h1
    refine ⟨promptHead (pyStr ((gs.lookup "course_name").getD (.jstr "Unknown Course"))),
      promptTail, ?_⟩
    unfold construct_autonomous_instruction
    rw [show pyDictGet (.jobj gs) "course_name" (.jstr "Unknown Course") =
          .ok ((gs.lookup "course_name").getD (.jstr "Unknown Course")) from rfl]
    rw [totalTasksOf_wf td h1, hys]
    simp [promptText, hlen]
  | jnull => simp [isObjB] at h2
  | jbool b => simp [isObjB] at h2
  | jnum n => simp [isObjB] at h2
  | jstr s => simp [isObjB] at h2
  | jlist l => simp [isObjB] at h2

/-- Witness for C1 at a concrete tasks file and course-info file. -/
theorem construct_instruction_reports_correct_counts_witness :
    ∃ pre post : String,
      construct_autonomous_instruction tdSample ciSample =
        .ok (pre ++ countsSentence (specTotalTasks tdSample) (specPendingCount tdSample)
             ++ post) :=
  construct_instruction_reports_correct_counts tdSample ciSample rfl rfl

/-- C9: for every tasks JSON input on which the prompt computation
succeeds, the pending task count embedded in the prompt is at most the
total task count embedded in the same prompt. -/
theorem prompt_pending_count_le_total (td : JVal) (n : Nat) (ys : List JVal)
    (h1 : totalTasksOf td = .ok n) (h2 : pendingTasksOf td = .ok ys) :
    ys.length ≤ n := by
  unfold totalTasksOf at h1
  unfold pendingTasksOf at h2
  cases hv : tasksList td with
  | error e => rw [hv] at h1; simp at h1
  | ok v =>
    rw [hv] at h1 h2
    simp only [ok_bind] at h1 h2
    cases hi : pyIter v with
    | error e => rw [hi] at h2; simp at h2
    | ok xs =>
      rw [hi] at h2
      simp only [ok_bind] at h2
      have hxs := pyIter_length v n xs h1 hi
      exact hxs ▸ filterPending_length_le xs ys h2

/-- Witness for C9 at the sample tasks file: one pending task out of
three. -/
theorem prompt_pending_count_le_total_witness :
    (List.length [JVal.jobj [("status", JVal.jstr "pending")]]) ≤ 3 :=
  prompt_pending_count_le_total tdSample 3
    [.jobj [("status", .jstr "pending")]] rfl rfl

/-! ## agent.py — course data loading (`load_course_data`)

The course directory's two JSON files are modelled by their state:
missing, present but not valid JSON, or present and parsing to a value.
File-system effects of the loader are recorded as an event trace. -/

/-- State of one JSON file on disk. -/
inductive FileState where
  | missing
  | malformed
  | parsed (content : JVal)

/-- Whether `Path.exists()` is true for the file. -/
def FileState.existsB : FileState → Bool
  | .missing => false
  | _ => true

/-- File-system events performed by the loader. -/
inductive FSEvent where
  | existsCheck (file : String)
  | openRead (file : String)
  | openWrite (file : String)

/-- An event that writes to or modifies a file. -/
def FSEvent.isWrite : FSEvent → Bool
  | .openWrite _ => true
  | _ => false

/-- Errors raised by `load_course_data`: `FileNotFoundError` or
`json.JSONDecodeError`. -/
inductive LoadErr where
  | fileNotFound (msg : String)
  | jsonDecode (msg : String)

/-- Embedding of `load_course_data(course_path)`: checks that both files
exist, then opens each for reading and parses it.  Returns the parsed
pair (or the raised error) together with the trace of file-system events;
the source opens both files with mode "r" only. -/
def load_course_data (tasksFile infoFile : FileState) :
    Except LoadErr (JVal × JVal) × List FSEvent :=
  if tasksFile.existsB = false then
    (.error (.fileNotFound "Tasks file not found: course_tasks.json"),
     [.existsCheck "course_tasks.json"])
  else if infoFile.existsB = false then
    (.error (.fileNotFound "Course info file not found: course_information.json"),
     [.existsCheck "course_tasks.json", .existsCheck "course_information.json"])
  else
    match tasksFile with
    | .malformed =>
      (.error (.jsonDecode "course_tasks.json"),
       [.existsCheck "course_tasks.json", .existsCheck "course_information.json",
        .openRead "course_tasks.json"])
    | .parsed tasks_data =>
      match infoFile with
      | .malformed =>
        (.error (.jsonDecode "course_information.json"),
         [.existsCheck "course_tasks.json", .existsCheck "course_information.json",
          .openRead "course_tasks.json", .openRead "course_information.json"])
      | .parsed course_info =>
        (.ok (tasks_data, course_info),
         [.existsCheck "course_tasks.json", .existsCheck "course_information.json",
          .openRead "course_tasks.json", .openRead "course_information.json"])
      | .missing =>
        (.error (.fileNotFound "Course info file not found: course_information.json"),
         [.existsCheck "course_tasks.json", .existsCheck "course_information.json"])
    | .missing =>
      (.error (.fileNotFound "Tasks file not found: course_tasks.json"),
       [.existsCheck "course_tasks.json"])

/-! ## agent.py — the agent runner (`run_autonomous_agent`)

The interaction with the external SDK is abstracted to its outcome: the
connection either raises `CLIConnectionError` or succeeds, and a
successful message loop either completes, is interrupted by the user, or
raises some other exception.  The messages streamed during the loop come
from the opaque external service, so the loop's own progress prints are
not modelled; the prints surrounding it are.  An uncaught Python
exception terminates the interpreter with a traceback on standard error
and exit status 1, which the model emits directly. -/

/-- Outcome of the message loop inside the SDK session. -/
inductive LoopOutcome where
  | completes
  | interrupted
  | raisesError (msg : String)

/-- Outcome of connecting to the external agent client. -/
inductive ConnState where
  | connError (msg : String)
  | connected (loop : LoopOutcome)

/-- Output stream of a print. -/
inductive StdStream where
  | stdout
  | stderr
deriving DecidableEq

/-- Environment of one `run_autonomous_agent` invocation. -/
structure AgentEnv where
  courseDirExists : Bool
  tasksFile : FileState
  infoFile : FileState
  conn : ConnState

/-- Header prints at the top of `run_autonomous_agent`. -/
def agentHeader : List (StdStream × String) :=
  [(.stdout, "AI Student - Autonomous Agent"),
   (.stdout, "Course directory: <course_path>"),
   (.stdout, "Knowledge base: <course_path>/knowledge_base"),
   (.stdout, "------------------------------------------------------------"),
   (.stdout, "Loading course data...")]

/-- Embedding of the two prints after a successful load, which evaluate
`len(tasks_data.get("tasks", []))` and `course_info.get("course_name",
"Unknown")` and so can themselves raise. -/
def loadedSummary (tasks_data course_info : JVal) :
    Except String (List (StdStream × String)) := do
  let n ← totalTasksOf tasks_data
  let cn ← pyDictGet course_info "course_name" (.jstr "Unknown")
  .ok [(.stdout, "Loaded " ++ toString n ++ " tasks"),
       (.stdout, "Course: " ++ pyStr cn)]

/-- Prints announcing the connection attempt. -/
def connectPrints : List (StdStream × String) :=
  [(.stdout, "Connecting to Claude SDK..."),
   (.stdout, "Starting autonomous task completion..."),
   (.stdout, "------------------------------------------------------------")]

/-- Embedding of `run_autonomous_agent(course_path)`: returns the print
trace (each with its stream) and the process exit code. -/
def run_autonomous_agent (env : AgentEnv) : List (StdStream × String) × Nat :=
  if env.courseDirExists = false then
    (agentHeader ++ [(.stderr, "Traceback: FileNotFoundError: Course directory not found")], 1)
  else
    match (load_course_data env.tasksFile env.infoFile).1 with
    | .error (.fileNotFound m) =>
      (agentHeader ++ [(.stderr, "Error: " ++ m)], 1)
    | .error (.jsonDecode m) =>
      (agentHeader ++ [(.stderr, "Error parsing JSON: " ++ m)], 1)
    | .ok (tasks_data, course_info) =>
      match loadedSummary tasks_data course_info with
      | .error m =>
        (agentHeader ++ [(.stderr, "Traceback: " ++ m)], 1)
      | .ok ls =>
        match env.conn with
        | .connError m =>
          (agentHeader ++ ls ++ connectPrints ++
           [(.stderr, "Connection error: " ++ m),
            (.stdout, "Make sure Claude Code CLI is installed and ANTHROPIC_API_KEY is set.")], 1)
        | .connected loop =>
          match construct_autonomous_instruction tasks_data course_info with
          | .error m =>
            (agentHeader ++ ls ++ connectPrints ++
             [(.stderr, "Unexpected error: " ++ m)], 1)
          | .ok _prompt =>
            match loop with
            | .completes =>
              (agentHeader ++ ls ++ connectPrints ++
               [(.stdout, "Sending initial instruction to Claude..."),
                (.stdout, "Claude is now working autonomously..."),
                (.stdout, "Agent session completed")], 0)
            | .interrupted =>
              (agentHeader ++ ls ++ connectPrints ++
               [(.stdout, "Sending initial instruction to Claude..."),
                (.stdout, "Claude is now working autonomously..."),
                (.stdout, "Interrupted by user")], 0)
            | .raisesError m =>
              (agentHeader ++ ls ++ connectPrints ++
               [(.stdout, "Sending initial instruction to Claude..."),
                (.stdout, "Claude is now working autonomously..."),
                (.stderr, "Unexpected error: " ++ m)], 1)

/-- C7: loading the course data leaves both JSON files unchanged: every
file-system event of `load_course_data` is a read (no write or
modification), and when both files parse the function returns exactly
their parsed contents. -/
theorem load_course_data_reads_only (tasksFile infoFile : FileState) :
    (∀ e ∈ (load_course_data tasksFile infoFile).2, e.isWrite = false)
    ∧ (∀ t i : JVal, tasksFile = .parsed t → infoFile = .parsed i →
        (load_course_data tasksFile infoFile).1 = .ok (t, i)) := by
  constructor
  · cases tasksFile <;> cases infoFile <;>
      simp [load_course_data, FileState.existsB, FSEvent.isWrite]
  · intro t i ht hi
    subst ht
    subst hi
    rfl

/-- Witness for C7: parsed files are returned as parsed, and the first
event of the trace is a read-only existence check. -/
theorem load_course_data_reads_only_witness :
    (load_course_data (.parsed (.jobj [])) (.parsed (.jobj []))).1 =
      .ok (.jobj [], .jobj [])
    ∧ FSEvent.isWrite (.existsCheck "course_tasks.json") = false :=
  ⟨(load_course_data_reads_only (.parsed (.jobj [])) (.parsed (.jobj []))).2 _ _ rfl rfl,
   (load_course_data_reads_only (.parsed (.jobj [])) (.parsed (.jobj []))).1 _
     (by simp [load_course_data, FileState.existsB])⟩

/-- C3: the agent run exits with code 1 whenever the tasks file or the
course-information file is missing, whenever either JSON file fails to
parse, and whenever connecting to the external agent client raises a
connection error. -/
theorem agent_exits_one_on_missing_or_bad_input (env : AgentEnv)
    (h : env.tasksFile = .missing ∨ env.infoFile = .missing ∨
         env.tasksFile = .malformed ∨ env.infoFile = .malformed ∨
         ∃ m, env.conn = .connError m) :
    (run_autonomous_agent env).2 = 1 := by
  obtain ⟨d, tf, inf, conn⟩ := env
  simp only at h ⊢
  cases d with
  | false => rfl
  | true => ?_
  rcases h with h | h | h | h | ⟨m, h⟩
  · subst h
    rfl
  · subst h
    cases tf <;> rfl
  · subst h
    cases inf <;> rfl
  · subst h
    cases tf <;> rfl
  · subst h
    cases tf with
    | missing => rfl
    | malformed => cases inf <;> rfl
    | parsed t =>
      cases inf with
      | missing => rfl
      | malformed => rfl
      | parsed i =>
        cases hls : loadedSummary t i <;>
          simp [run_autonomous_agent, load_course_data, FileState.existsB, hls]

/-- Witness for C3: missing tasks file, exit code 1. -/
theorem agent_exits_one_on_missing_or_bad_input_witness :
    (run_autonomous_agent
      (AgentEnv.mk true .missing .missing (.connected .completes))).2 = 1 :=
  agent_exits_one_on_missing_or_bad_input
    (AgentEnv.mk true .missing .missing (.connected .completes)) (Or.inl rfl)

/-- C5: the agent run exits with code 0 both on normal completion of the
message loop and when the run is interrupted by the user. -/
theorem agent_exits_zero_on_completion_or_interrupt (env : AgentEnv)
    (tasks_data course_info : JVal) (ls : List (StdStream × String)) (p : String)
    (hdir : env.courseDirExists = true)
    (hload : (load_course_data env.tasksFile env.infoFile).1 =
      .ok (tasks_data, course_info))
    (hsum : loadedSummary tasks_data course_info = .ok ls)
    (hcons : construct_autonomous_instruction tasks_data course_info = .ok p)
    (hloop : env.conn = .connected .completes ∨ env.conn = .connected .interrupted) :
    (run_autonomous_agent env).2 = 0 := by
  obtain ⟨d, tf, inf, conn⟩ := env
  simp only at hdir hload hcons hloop ⊢
  subst hdir
  rcases hloop with h | h <;> subst h <;>
    simp [run_autonomous_agent, hload, hsum, hcons]

/-- Witness for C5: well-formed empty course data, loop completes, exit
code 0. -/
theorem agent_exits_zero_on_completion_or_interrupt_witness :
    (run_autonomous_agent
      (AgentEnv.mk true (.parsed (.jobj [])) (.parsed (.jobj []))
        (.connected .completes))).2 = 0 :=
  agent_exits_zero_on_completion_or_interrupt
    (AgentEnv.mk true (.parsed (.jobj [])) (.parsed (.jobj []))
      (.connected .completes))
    (.jobj []) (.jobj []) _ _ rfl rfl rfl rfl (Or.inl rfl)

/-! ## pdf_restructure.py — splitting a PDF (`split_pdf`)

The source PDF is modelled as the list of its pages; pages are abstract
identifiers (`Nat`), so that the content of an output file is the list of
source pages copied into it.  `reader.pages[i]` is Python sequence
indexing: negative indices count from the end, and an index out of range
raises `IndexError`. -/

/-- Python sequence indexing `xs[i]` with an `int` index. -/
def pyListIndex (xs : List Nat) (i : Int) : Except String Nat :=
  let j : Int := if i < 0 then (xs.length : Int) + i else i
  if h : 0 ≤ j ∧ j.toNat < xs.length then .ok (xs.get ⟨j.toNat, h.2⟩)
  else .error "IndexError: sequence index out of range"

/-- Python `range(a, b)` over ints: the ints from `a` up to `b - 1`. -/
def pyRange (a b : Int) : List Int :=
  (List.range (b - a).toNat).map (fun k => a + Int.ofNat k)

/-- The page-copy loop `for page_num in range(start_page, end_page):
writer.add_page(reader.pages[page_num])`. -/
def collectPages (src : List Nat) : List Int → Except String (List Nat)
  | [] => .ok []
  | i :: is => do
    let p ← pyListIndex src i
    let ps ← collectPages src is
    .ok (p :: ps)

/-- Embedding of the `safe_title` computation, carried out on the
character list: keep alphanumeric characters, spaces, dashes and
underscores; strip leading and trailing whitespace (`str.strip`); replace
each space by an underscore (`str.replace(' ', '_')` with a one-character
pattern is a per-character substitution); slice to the first 50
characters.  Python `str.isalnum` is modelled by `Char.isAlphanum`. -/
def sanitizeTitle (t : String) : String :=
  let kept := t.toList.filter (fun c => c.isAlphanum || c = ' ' || c = '-' || c = '_')
  let trimmed := (((kept.dropWhile Char.isWhitespace).reverse).dropWhile
    Char.isWhitespace).reverse
  String.mk ((trimmed.map (fun c => if c = ' ' then '_' else c)).take 50)

/-- Embedding of Python `d`-formatting with format spec `02d`: the decimal
rendering of the integer, zero-padded to a minimum width of two.  Only
non-negative single-digit values are shorter than two characters (a
negative value already carries its sign character), so exactly those get
a leading zero. -/
def format02d (n : Int) : String :=
  if 0 ≤ n ∧ n < 10 then "0" ++ toString n else toString n

/-- A string value, as required where the Python code iterates the
characters of `chapter["chapter_title"]`. -/
def pyStrVal : JVal → Except String String
  | .jstr s => .ok s
  | _ => .error "TypeError: str expected"

/-- Embedding of one iteration of the `split_pdf` loop body: field
accesses, page copying, title sanitising and filename construction follow
the source order.  Returns the written file as (name, page content). -/
def processChapter (src : List Nat) (ch : JVal) :
    Except String (String × List Nat) := do
  let sv ← pyDictItem ch "start_page"
  let s ← pyInt sv
  let ev ← pyDictItem ch "end_page"
  let e ← pyInt ev
  let pages ← collectPages src (pyRange (s - 1) e)
  let tv ← pyDictItem ch "chapter_title"
  let title ← pyStrVal tv
  let nv ← pyDictItem ch "chapter_number"
  let n ← pyInt nv
  .ok ("Chapter_" ++ format02d n ++ "_" ++ sanitizeTitle title ++ ".pdf", pages)

/-- Embedding of `split_pdf(pdf_path, chapters, output_dir)`: one file
write per chapter entry, in order.  Returns the sequence of performed
writes together with the exception, if any, that aborted the loop;
writes made before the exception persist. -/
def split_pdf (src : List Nat) (chapters : List JVal) :
    List (String × List Nat) × Option String :=
  match chapters with
  | [] => ([], none)
  | ch :: rest =>
    match processChapter src ch with
    | .error e => ([], some e)
    | .ok w =>
      let r := split_pdf src rest
      (w :: r.1, r.2)

/-- Writing one file into a directory state: a later write to an existing
name overwrites that file. -/
def setFile (fs : List (String × List Nat)) (name : String) (content : List Nat) :
    List (String × List Nat) :=
  match fs with
  | [] => [(name, content)]
  | (n2, c2) :: rest =>
    if n2 = name then (name, content) :: rest else (n2, c2) :: setFile rest name content

/-- The files present in the output directory after a sequence of
writes. -/
def finalFS (writes : List (String × List Nat)) : List (String × List Nat) :=
  writes.foldl (fun fs w => setFile fs w.1 w.2) []

/-! ## pdf_restructure.py — chapter detection and the `main` driver

The upload, model call, code-fence stripping and `json.loads` of
`get_chapter_boundaries` all concern the opaque external API; they are
abstracted to their combined outcome: either a raised exception or the
parsed response value.  The final `result.get("chapters", [])` is the
repository's own logic and is embedded. -/

/-- Embedding of the tail of `get_chapter_boundaries`: given the outcome
of the model call and JSON parse, extract `result.get("chapters", [])`. -/
def get_chapter_boundaries (modelResponse : Except String JVal) :
    Except String JVal := do
  let result ← modelResponse
  pyDictGet result "chapters" (.jlist [])

/-- The per-chapter line of the "Found N chapters" listing in `main`,
whose direct subscripts can raise `KeyError`. -/
def chapterLine (ch : JVal) : Except String (StdStream × String) := do
  let nv ← pyDictItem ch "chapter_number"
  let tv ← pyDictItem ch "chapter_title"
  let sv ← pyDictItem ch "start_page"
  let ev ← pyDictItem ch "end_page"
  .ok (.stdout, "  Chapter " ++ pyStr nv ++ ": " ++ pyStr tv ++
    " (pages " ++ pyStr sv ++ "-" ++ pyStr ev ++ ")")

/-- The listing loop over all chapters. -/
def foundSummary : List JVal → Except String (List (StdStream × String))
  | [] => .ok []
  | ch :: rest => do
    let l ← chapterLine ch
    let ls ← foundSummary rest
    .ok (l :: ls)

/-- Environment of one `main` invocation of the PDF script. -/
structure PdfEnv where
  pdfFileExists : Bool
  apiKeyArg : Option String
  apiKeyEnvVar : Option String
  modelResponse : Except String JVal
  srcPages : List Nat

/-- Embedding of `api_key = args.api_key or os.getenv('GEMINI_API_KEY')`
followed by `if not api_key`: Python `or` and `not` treat the empty
string like None, so the effective key is the first non-empty choice. -/
def effectiveApiKey (env : PdfEnv) : Option String :=
  match env.apiKeyArg with
  | some s =>
    if s = "" then
      match env.apiKeyEnvVar with
      | some t => if t = "" then none else some t
      | none => none
    else some s
  | none =>
    match env.apiKeyEnvVar with
    | some t => if t = "" then none else some t
    | none => none

/-- Embedding of `main()` of the PDF script: returns the print trace,
the exit code, and the output files written.  Note that every error
report of this script uses a plain `print`, i.e. standard output; only an
uncaught exception (modelled by the `Traceback` events) reaches standard
error through the interpreter. -/
def pdf_main (env : PdfEnv) : List (StdStream × String) × Nat × List (String × List Nat) :=
  if env.pdfFileExists = false then
    ([(.stdout, "Error: File not found: <pdf_file>")], 1, [])
  else
    match effectiveApiKey env with
    | none => ([(.stdout, "Error: GEMINI_API_KEY required")], 1, [])
    | some _key =>
      match get_chapter_boundaries env.modelResponse with
      | .error e =>
        ([(.stdout, "Uploading PDF to Gemini..."),
          (.stdout, "Analyzing PDF structure..."),
          (.stdout, "Error: " ++ e)], 1, [])
      | .ok chapters =>
        if pyTruthy chapters = false then
          ([(.stdout, "Uploading PDF to Gemini..."),
            (.stdout, "Analyzing PDF structure..."),
            (.stdout, "Error: No chapters identified")], 1, [])
        else
          match pyLen chapters with
          | .error e =>
            ([(.stdout, "Uploading PDF to Gemini..."),
              (.stdout, "Analyzing PDF structure..."),
              (.stderr, "Traceback: " ++ e)], 1, [])
          | .ok nch =>
            match pyIter chapters with
            | .error e =>
              ([(.stdout, "Uploading PDF to Gemini..."),
                (.stdout, "Analyzing PDF structure..."),
                (.stdout, "Found " ++ toString nch ++ " chapters:"),
                (.stderr, "Traceback: " ++ e)], 1, [])
            | .ok chlist =>
              match foundSummary chlist with
              | .error e =>
                ([(.stdout, "Uploading PDF to Gemini..."),
                  (.stdout, "Analyzing PDF structure..."),
                  (.stdout, "Found " ++ toString nch ++ " chapters:"),
                  (.stderr, "Traceback: " ++ e)], 1, [])
              | .ok lines =>
                let r := split_pdf env.srcPages chlist
                match r.2 with
                | some e =>
                  ([(.stdout, "Uploading PDF to Gemini..."),
                    (.stdout, "Analyzing PDF structure..."),
                    (.stdout, "Found " ++ toString nch ++ " chapters:")] ++ lines ++
                   [(.stdout, "Splitting PDF into " ++ toString chlist.length ++
                      " chapters..."),
                    (.stdout, "Error: " ++ e)], 1, finalFS r.1)
                | none =>
                  ([(.stdout, "Uploading PDF to Gemini..."),
                    (.stdout, "Analyzing PDF structure..."),
                    (.stdout, "Found " ++ toString nch ++ " chapters:")] ++ lines ++
                   [(.stdout, "Splitting PDF into " ++ toString chlist.length ++
                      " chapters..."),
                    (.stdout, "Successfully split PDF into " ++
                      toString chlist.length ++ " chapters")], 0, finalFS r.1)

/-! ### Lemmas about the page-copy loop -/

lemma pyRange_cons (a b : Int) (k : Nat) (h : (b - a).toNat = k + 1) :
    pyRange a b = a :: pyRange (a + 1) b := by
  unfold pyRange
  have h2 : (b - (a + 1)).toNat = k := by omega
  rw [h, h2, List.range_succ_eq_map, List.map_cons, List.map_map]
  simp only [List.cons.injEq]
  refine ⟨by simp, ?_⟩
  apply List.map_congr_left
  intro x hx
  simp only [Function.comp, Nat.succ_eq_add_one, Int.ofNat_eq_coe]
  push_cast
  ring

lemma collectPages_range (src : List Nat) (b : Int) (hb : b ≤ (src.length : Int)) :
    ∀ (k : Nat) (a : Int), 0 ≤ a → (b - a).toNat = k →
      collectPages src (pyRange a b) = .ok ((src.drop a.toNat).take k) := by
  intro k
  induction k with
  | zero =>
    intro a ha hk
    have hemp : pyRange a b = [] := by
      unfold pyRange
      rw [hk]
      rfl
    rw [hemp]
    simp [collectPages]
  | succ k ih =>
    intro a ha hk
    rw [pyRange_cons a b k hk]
    have hab : a < b := by omega
    have hlt : a.toNat < src.length := by omega
    have hidx : pyListIndex src a = .ok (src.get ⟨a.toNat, hlt⟩) := by
      unfold pyListIndex
      have hnneg : ¬ a < 0 := by omega
      simp only [if_neg hnneg]
      rw [dif_pos ⟨ha, hlt⟩]
    have hih := ih (a + 1) (by omega) (by omega)
    have hcast : (a + 1).toNat = a.toNat + 1 := by omega
    rw [hcast] at hih
    simp only [collectPages, hidx, hih, ok_bind]
    rw [List.drop_eq_getElem_cons hlt, List.take_succ_cons]
    simp [List.get_eq_getElem]

/-- The source pages a chapter record selects: pages `start_page` through
`end_page` in 1-indexed terms. -/
def chapterContent (src : List Nat) (s e : Int) : List Nat :=
  (src.drop (s - 1).toNat).take (e - (s - 1)).toNat

/-- The output filename a chapter record produces. -/
def chapterFilename (n : Int) (title : String) : String :=
  "Chapter_" ++ format02d n ++ "_" ++ sanitizeTitle title ++ ".pdf"

/-- Well-formed chapter boundary record for a source document with
`pageCount` pages: an object carrying an integer chapter number, a string
title, and integer 1-indexed start/end pages within the document. -/
def wfChapter (pageCount : Nat) (ch : JVal) : Bool :=
  match ch with
  | .jobj fields =>
    (match fields.lookup "chapter_number" with
     | some (.jnum _) => true
     | _ => false) &&
    (match fields.lookup "chapter_title" with
     | some (.jstr _) => true
     | _ => false) &&
    (match fields.lookup "start_page" with
     | some (.jnum s) => decide (1 ≤ s)
     | _ => false) &&
    (match fields.lookup "end_page" with
     | some (.jnum e) => decide (e ≤ (pageCount : Int))
     | _ => false)
  | _ => false

lemma processChapter_ok (src : List Nat) (fields : List (String × JVal))
    (n s e : Int) (title : String)
    (hn : fields.lookup "chapter_number" = some (.jnum n))
    (ht : fields.lookup "chapter_title" = some (.jstr title))
    (hs : fields.lookup "start_page" = some (.jnum s))
    (he : fields.lookup "end_page" = some (.jnum e))
    (hs1 : 1 ≤ s) (he1 : e ≤ (src.length : Int)) :
    processChapter src (.jobj fields) =
      .ok (chapterFilename n title, chapterContent src s e) := by
  have hcoll := collectPages_range src e he1 (e - (s - 1)).toNat (s - 1)
    (by omega) rfl
  unfold processChapter
  simp only [pyDictItem, hn, ht, hs, he, pyInt, pyStrVal, ok_bind, hcoll]
  rfl

lemma wfChapter_fields (pageCount : Nat) (ch : JVal) (h : wfChapter pageCount ch = true) :
    ∃ (fields : List (String × JVal)) (n s e : Int) (title : String),
      ch = .jobj fields ∧
      fields.lookup "chapter_number" = some (.jnum n) ∧
      fields.lookup "chapter_title" = some (.jstr title) ∧
      fields.lookup "start_page" = some (.jnum s) ∧
      fields.lookup "end_page" = some (.jnum e) ∧
      1 ≤ s ∧ e ≤ (pageCount : Int) := by
  cases ch with
  | jobj fields =>
    simp only [wfChapter, Bool.and_eq_true] at h
    obtain ⟨⟨⟨hn, ht⟩, hs⟩, he⟩ := h
    split at hn
    · rename_i n hln
      split at ht
      · rename_i title hlt
        split at hs
        · rename_i s hls
          split at he
          · rename_i e hle
            exact ⟨fields, n, s, e, title, rfl, hln, hlt, hls, hle,
              of_decide_eq_true hs, of_decide_eq_true he⟩
          · simp at he
        · simp at hs
      · simp at ht
    · simp at hn
  | jnull => simp [wfChapter] at h
  | jbool b => simp [wfChapter] at h
  | jnum n => simp [wfChapter] at h
  | jstr s => simp [wfChapter] at h
  | jlist l => simp [wfChapter] at h

/-- The file written for one chapter record (meaningful when
`processChapter` succeeds on it). -/
def chapterWrite (src : List Nat) (ch : JVal) : String × List Nat :=
  match processChapter src ch with
  | .ok w => w
  | .error _ => ("", [])

lemma chapterWrite_eq (src : List Nat) (ch : JVal)
    (h : wfChapter src.length ch = true) :
    ∃ (n s e : Int) (title : String) (fields : List (String × JVal)),
      ch = .jobj fields ∧
      fields.lookup "start_page" = some (.jnum s) ∧
      fields.lookup "end_page" = some (.jnum e) ∧
      processChapter src ch = .ok (chapterWrite src ch) ∧
      chapterWrite src ch = (chapterFilename n title, chapterContent src s e) := by
  obtain ⟨fields, n, s, e, title, hch, hn, ht, hs, he, h1, h2⟩ :=
    wfChapter_fields src.length ch h
  subst hch
  have hp := processChapter_ok src fields n s e title hn ht hs he h1 h2
  exact ⟨n, s, e, title, fields, rfl, hs, he,
    by simp [chapterWrite, hp], by simp [chapterWrite, hp]⟩

lemma split_pdf_ok_of_wf (src : List Nat) :
    ∀ chapters : List JVal, (∀ ch ∈ chapters, wfChapter src.length ch = true) →
      split_pdf src chapters = (chapters.map (chapterWrite src), none) := by
  intro chapters
  induction chapters with
  | nil =>
    intro _
    rfl
  | cons ch rest ih =>
    intro h
    obtain ⟨n, s, e, title, fields, hcheq, hs, he, hproc, hw⟩ :=
      chapterWrite_eq src ch (h ch (List.mem_cons_self ch rest))
    have hrest := ih (fun c hc => h c (List.mem_cons_of_mem ch hc))
    simp only [split_pdf, hproc, hrest, List.map_cons]

lemma setFile_of_not_mem (fs : List (String × List Nat)) (name : String) (c : List Nat)
    (h : name ∉ fs.map Prod.fst) : setFile fs name c = fs ++ [(name, c)] := by
  induction fs with
  | nil => rfl
  | cons p rest ih =>
    obtain ⟨n2, c2⟩ := p
    simp only [List.map_cons, List.mem_cons] at h
    push_neg at h
    obtain ⟨h1, h2⟩ := h
    simp only [setFile]
    rw [if_neg (fun hh => h1 hh.symm), ih h2]
    rfl

lemma foldl_setFile_append (ws : List (String × List Nat)) :
    ∀ fs : List (String × List Nat), ((fs ++ ws).map Prod.fst).Nodup →
      ws.foldl (fun acc w => setFile acc w.1 w.2) fs = fs ++ ws := by
  induction ws with
  | nil =>
    intro fs _
    simp
  | cons w rest ih =>
    intro fs h
    obtain ⟨name, c⟩ := w
    have hnotin : name ∉ fs.map Prod.fst := by
      rw [List.map_append] at h
      have hd := (List.nodup_append.mp h).2.2
      intro hmem
      exact hd hmem (by simp)
    simp only [List.foldl_cons]
    rw [setFile_of_not_mem fs name c hnotin]
    have hre : (fs ++ [(name, c)]) ++ rest = fs ++ (name, c) :: rest := by
      rw [List.append_assoc, List.singleton_append]
    have := ih (fs ++ [(name, c)]) (by rw [hre]; exact h)
    rw [this, hre]

lemma finalFS_of_nodup (ws : List (String × List Nat))
    (h : (ws.map Prod.fst).Nodup) : finalFS ws = ws := by
  have := foldl_setFile_append ws [] (by simpa using h)
  simpa [finalFS] using this

lemma lookup_map_fst {α : Type} (f : α → String × List Nat) (l : List α) (x : α)
    (hmem : x ∈ l) (hnd : (l.map (fun y => (f y).1)).Nodup) :
    (l.map f).lookup (f x).1 = some (f x).2 := by
  induction l with
  | nil => cases hmem
  | cons c rest ih =>
    simp only [List.map_cons] at hnd ⊢
    rcases List.mem_cons.mp hmem with rfl | hmem2
    · rw [show f x = ((f x).1, (f x).2) from rfl]
      simp [List.lookup]
    · have hne : (f x).1 ≠ (f c).1 := by
        intro heq
        have hx : (f x).1 ∈ rest.map (fun y => (f y).1) :=
          List.mem_map_of_mem (fun y => (f y).1) hmem2
        rw [heq] at hx
        exact (List.nodup_cons.mp hnd).1 hx
      have ihh := ih hmem2 (List.nodup_cons.mp hnd).2
      rw [show f c = ((f c).1, (f c).2) from rfl]
      simp only [List.lookup]
      rw [show ((f x).1 == (f c).1) = false from beq_eq_false_iff_ne.mpr hne]
      exact ihh

/-- A concrete chapter record: chapter 1, title "A", pages 1 to 2. -/
def chDup : JVal :=
  .jobj [("chapter_number", .jnum 1), ("chapter_title", .jstr "A"),
         ("start_page", .jnum 1), ("end_page", .jnum 2)]

set_option maxRecDepth 8192 in
/-- C2 counterexample: a chapter list of two entries that are the same
record makes `split_pdf` perform two writes to the same output name, so
only one output PDF file exists afterwards, not two as the claim
states. -/
theorem split_pdf_duplicate_counterexample :
    ([(chDup : JVal), chDup].length = 2)
    ∧ (split_pdf [7, 8] [chDup, chDup]).2 = none
    ∧ (finalFS (split_pdf [7, 8] [chDup, chDup]).1).length = 1 :=
  ⟨rfl, rfl, by rfl⟩

/-- C2 amended: for every chapter list whose entries are well-formed
boundary records with page ranges inside the source document, `split_pdf`
performs exactly one write per entry and raises no error; when the
computed output filenames are pairwise distinct, exactly N output files
exist afterwards, and the file for a chapter with 1-indexed start page s
and end page e contains exactly the source pages s through e
inclusive. -/
theorem split_pdf_writes_one_file_per_chapter (src : List Nat) (chapters : List JVal)
    (hwf : ∀ ch ∈ chapters, wfChapter src.length ch = true)
    (hnd : (chapters.map (fun ch => (chapterWrite src ch).1)).Nodup) :
    (split_pdf src chapters).2 = none
    ∧ (split_pdf src chapters).1.length = chapters.length
    ∧ (finalFS (split_pdf src chapters).1).length = chapters.length
    ∧ ∀ ch ∈ chapters, ∀ (s e : Int) (fields : List (String × JVal)),
        ch = .jobj fields →
        fields.lookup "start_page" = some (.jnum s) →
        fields.lookup "end_page" = some (.jnum e) →
        (finalFS (split_pdf src chapters).1).lookup (chapterWrite src ch).1
          = some (chapterContent src s e) := by
  have hsplit := split_pdf_ok_of_wf src chapters hwf
  have hkeys : ((chapters.map (chapterWrite src)).map Prod.fst).Nodup := by
    rw [List.map_map]
    exact hnd
  have hfs : finalFS (split_pdf src chapters).1 = chapters.map (chapterWrite src) := by
    rw [hsplit]
    exact finalFS_of_nodup _ hkeys
  refine ⟨by rw [hsplit], by rw [hsplit]; simp, by rw [hfs]; simp, ?_⟩
  intro ch hmem s e fields hcheq hs he
  rw [hfs, lookup_map_fst (chapterWrite src) chapters ch hmem hnd]
  obtain ⟨n2, s2, e2, title2, fields2, hcheq2, hs2, he2, hproc2, hw2⟩ :=
    chapterWrite_eq src ch (hwf ch hmem)
  rw [hcheq] at hcheq2
  have hfe : fields2 = fields := by
    injection hcheq2 with hfe
    exact hfe.symm
  subst hfe
  rw [hs] at hs2
  rw [he] at he2
  simp only [Option.some.injEq, JVal.jnum.injEq] at hs2 he2
  subst hs2
  subst he2
  rw [hw2]

set_option maxRecDepth 8192 in
/-- Witness for the amended C2 at a single concrete chapter: its output
file holds source pages 1 through 2. -/
theorem split_pdf_writes_one_file_per_chapter_witness :
    (finalFS (split_pdf [7, 8] [chDup]).1).lookup (chapterWrite [7, 8] chDup).1
      = some (chapterContent [7, 8] 1 2) :=
  (split_pdf_writes_one_file_per_chapter [7, 8] [chDup]
    (by
      intro ch hch
      simp only [List.mem_singleton] at hch
      subst hch
      rfl)
    (by simp)).2.2.2 chDup (List.mem_singleton.mpr rfl) 1 2
    [("chapter_number", .jnum 1), ("chapter_title", .jstr "A"),
     ("start_page", .jnum 1), ("end_page", .jnum 2)] rfl rfl rfl

/-- C6 counterexample: a chapter-boundary record lacking the expected
"start_page" field makes `split_pdf` raise a `KeyError`, so not every
field access on these records tolerates a missing key. -/
theorem chapter_missing_field_raises_counterexample :
    (split_pdf [7] [JVal.jobj [("chapter_number", JVal.jnum 1)]]).2
      = some "KeyError: start_page" := rfl

/-- C6 amended: field accesses on task records and course-info records
are dictionary lookups with defaults and never raise on records with
missing fields, but chapter-boundary records are read with direct
subscripts, which raise a `KeyError` when a field is missing. -/
theorem record_field_access_with_defaults :
    (∀ td ci : JVal, wellFormedTasks td = true → isObjB ci = true →
      ∃ p, construct_autonomous_instruction td ci = .ok p)
    ∧ (∀ src : List Nat, (split_pdf src [JVal.jobj []]).2.isSome = true) := by
  constructor
  · intro td ci h1 h2
    cases ci with
    | jobj gs =>
      obtain ⟨ys, hys, _⟩ := pendingTasksOf_wf td h1
      refine ⟨promptText
        (pyStr ((gs.lookup "course_name").getD (.jstr "Unknown Course")))
        (specTotalTasks td) ys.length, ?_⟩
      unfold construct_autonomous_instruction
      rw [show pyDictGet (.jobj gs) "course_name" (.jstr "Unknown Course") =
            .ok ((gs.lookup "course_name").getD (.jstr "Unknown Course")) from rfl]
      rw [totalTasksOf_wf td h1, hys]
      rfl
    | jnull => simp [isObjB] at h2
    | jbool b => simp [isObjB] at h2
    | jnum n => simp [isObjB] at h2
    | jstr s => simp [isObjB] at h2
    | jlist l => simp [isObjB] at h2
  · intro src
    have h : processChapter src (.jobj []) = .error "KeyError: start_page" := rfl
    simp [split_pdf, h]

/-- Witness for the amended C6: records with every field missing are fine
for the agent, and a chapter record with every field missing raises. -/
theorem record_field_access_with_defaults_witness :
    (∃ p, construct_autonomous_instruction (JVal.jobj []) (JVal.jobj []) = .ok p)
    ∧ (split_pdf [7] [JVal.jobj []]).2.isSome = true :=
  ⟨record_field_access_with_defaults.1 (.jobj []) (.jobj []) rfl rfl,
   record_field_access_with_defaults.2 [7]⟩

/-- A chapter record with a three-digit chapter number. -/
def chBig : JVal :=
  .jobj [("chapter_number", .jnum 100), ("chapter_title", .jstr "A"),
         ("start_page", .jnum 1), ("end_page", .jnum 1)]

set_option maxRecDepth 8192 in
/-- C8 counterexample: for chapter number 100 the output filename is
`Chapter_100_A.pdf`, whose digit run after `Chapter_` has three digits,
not two as the claim states. -/
theorem chapter_filename_two_digit_counterexample :
    (split_pdf [7] [chBig]).1.map Prod.fst = ["Chapter_100_A.pdf"]
    ∧ ((("Chapter_100_A.pdf").toList.drop 8).takeWhile Char.isDigit).length = 3 :=
  ⟨by rfl, by rfl⟩

/-- Concrete chapter fields used in the C8 witness. -/
def chFieldsW : List (String × JVal) :=
  [("chapter_number", .jnum 1), ("chapter_title", .jstr "A"),
   ("start_page", .jnum 1), ("end_page", .jnum 2)]

/-- C8 amended: each chapter's output file is written under the name
`Chapter_NN_<title>.pdf` where `<title>` is the sanitized chapter title
and NN is the chapter number zero-padded to a minimum of two digits:
non-negative single-digit numbers get a leading zero, larger numbers keep
all their digits. -/
theorem chapter_filename_format (src : List Nat) (fields : List (String × JVal))
    (n s e : Int) (title : String)
    (hn : fields.lookup "chapter_number" = some (.jnum n))
    (ht : fields.lookup "chapter_title" = some (.jstr title))
    (hs : fields.lookup "start_page" = some (.jnum s))
    (he : fields.lookup "end_page" = some (.jnum e))
    (hs1 : 1 ≤ s) (he1 : e ≤ (src.length : Int)) :
    (∃ content, processChapter src (.jobj fields) =
      .ok ("Chapter_" ++ format02d n ++ "_" ++ sanitizeTitle title ++ ".pdf", content))
    ∧ (0 ≤ n → n < 10 → format02d n = "0" ++ toString n)
    ∧ (10 ≤ n → format02d n = toString n) := by
  refine ⟨⟨chapterContent src s e,
    processChapter_ok src fields n s e title hn ht hs he hs1 he1⟩, ?_, ?_⟩
  · intro h1 h2
    unfold format02d
    rw [if_pos ⟨h1, h2⟩]
  · intro h
    unfold format02d
    rw [if_neg (by omega)]

/-- Witness for the amended C8 at chapter number 1: the filename carries
the zero-padded number 01. -/
theorem chapter_filename_format_witness :
    (∃ content, processChapter [7, 8] (JVal.jobj chFieldsW) =
      .ok ("Chapter_" ++ format02d 1 ++ "_" ++ sanitizeTitle "A" ++ ".pdf", content))
    ∧ format02d 1 = "0" ++ toString (1 : Int) := by
  have h := chapter_filename_format [7, 8] chFieldsW 1 1 2 "A" rfl rfl rfl rfl
    (by norm_num) (by norm_num)
  exact ⟨h.1, h.2.1 (by norm_num) (by norm_num)⟩

/-- C10: when the parsed model response is an object without a "chapters"
key, `get_chapter_boundaries` returns the empty list, and `main` prints
"Error: No chapters identified", exits with code 1, and writes no output
chapter file. -/
theorem missing_chapters_key_reports_and_exits_one (env : PdfEnv) (key : String)
    (fields : List (String × JVal))
    (hex : env.pdfFileExists = true)
    (hkey : effectiveApiKey env = some key)
    (hresp : env.modelResponse = .ok (.jobj fields))
    (hnone : fields.lookup "chapters" = none) :
    get_chapter_boundaries env.modelResponse = .ok (.jlist [])
    ∧ (StdStream.stdout, "Error: No chapters identified") ∈ (pdf_main env).1
    ∧ (pdf_main env).2.1 = 1
    ∧ (pdf_main env).2.2 = [] := by
  have hb : get_chapter_boundaries env.modelResponse = .ok (.jlist []) := by
    rw [hresp]
    simp [get_chapter_boundaries, pyDictGet, hnone]
  refine ⟨hb, ?_, ?_, ?_⟩ <;>
    simp [pdf_main, hex, hkey, hb, pyTruthy]

/-- Witness for C10 at a concrete environment with an object response
lacking the "chapters" key. -/
theorem missing_chapters_key_reports_and_exits_one_witness :
    get_chapter_boundaries
      (PdfEnv.mk true (some "k") none (.ok (.jobj [("title", .jstr "Book")])) [7]).modelResponse
      = .ok (.jlist [])
    ∧ (StdStream.stdout, "Error: No chapters identified") ∈
        (pdf_main (PdfEnv.mk true (some "k") none
          (.ok (.jobj [("title", .jstr "Book")])) [7])).1
    ∧ (pdf_main (PdfEnv.mk true (some "k") none
        (.ok (.jobj [("title", .jstr "Book")])) [7])).2.1 = 1
    ∧ (pdf_main (PdfEnv.mk true (some "k") none
        (.ok (.jobj [("title", .jstr "Book")])) [7])).2.2 = [] :=
  missing_chapters_key_reports_and_exits_one
    (PdfEnv.mk true (some "k") none (.ok (.jobj [("title", .jstr "Book")])) [7])
    "k" [("title", .jstr "Book")] rfl rfl rfl rfl

/-- The environments in which `run_autonomous_agent` catches an error in
one of its top-level handlers (`FileNotFoundError`, `JSONDecodeError`,
`CLIConnectionError`, or the generic `Exception` handler).  A user
interrupt is not an error, and an exception outside every handler is not
caught. -/
def agentCaughtError (env : AgentEnv) : Bool :=
  env.courseDirExists &&
  (match (load_course_data env.tasksFile env.infoFile).1 with
   | .error _ => true
   | .ok (td, ci) =>
     match loadedSummary td ci with
     | .error _ => false
     | .ok _ =>
       match env.conn with
       | .connError _ => true
       | .connected l =>
         match construct_autonomous_instruction td ci with
         | .error _ => true
         | .ok _ =>
           match l with
           | .raisesError _ => true
           | _ => false)

/-- The environments in which the PDF script's `main` catches an error in
one of its two try/except blocks (around `get_chapter_boundaries` and
around `split_pdf`). -/
def pdfCaughtError (env : PdfEnv) : Bool :=
  env.pdfFileExists &&
  (match effectiveApiKey env with
   | none => false
   | some _ =>
     match get_chapter_boundaries env.modelResponse with
     | .error _ => true
     | .ok chapters =>
       if pyTruthy chapters = false then false
       else
         match pyLen chapters with
         | .error _ => false
         | .ok _ =>
           match pyIter chapters with
           | .error _ => false
           | .ok chlist =>
             match foundSummary chlist with
             | .error _ => false
             | .ok _ => ((split_pdf env.srcPages chlist).2).isSome)

/-- C4 amended: every error caught at the top level of either script
leads to a non-zero exit; the agent script reports the error to standard
error, while the PDF script reports it with an `Error:` message on
standard output, not standard error. -/
theorem caught_errors_reported (envA : AgentEnv) (envP : PdfEnv) :
    (agentCaughtError envA = true →
      (run_autonomous_agent envA).2 = 1
      ∧ ∃ m, (StdStream.stderr, m) ∈ (run_autonomous_agent envA).1)
    ∧ (pdfCaughtError envP = true →
      (pdf_main envP).2.1 = 1
      ∧ ∃ m, (StdStream.stdout, "Error: " ++ m) ∈ (pdf_main envP).1) := by
  constructor
  · intro h
    obtain ⟨d, tf, inf, conn⟩ := envA
    simp only [agentCaughtError, Bool.and_eq_true] at h
    obtain ⟨hd, h⟩ := h
    subst hd
    cases hl : (load_course_data tf inf).1 with
    | error e =>
      cases e with
      | fileNotFound m =>
        refine ⟨by simp [run_autonomous_agent, hl], "Error: " ++ m, ?_⟩
        simp [run_autonomous_agent, hl]
      | jsonDecode m =>
        refine ⟨by simp [run_autonomous_agent, hl], "Error parsing JSON: " ++ m, ?_⟩
        simp [run_autonomous_agent, hl]
    | ok tdci =>
      obtain ⟨td, ci⟩ := tdci
      rw [hl] at h
      dsimp only at h
      cases hsum : loadedSummary td ci with
      | error m => rw [hsum] at h; simp at h
      | ok ls =>
        rw [hsum] at h
        dsimp only at h
        cases conn with
        | connError m =>
          refine ⟨by simp [run_autonomous_agent, hl, hsum], "Connection error: " ++ m, ?_⟩
          simp [run_autonomous_agent, hl, hsum]
        | connected l =>
          cases hc : construct_autonomous_instruction td ci with
          | error m =>
            refine ⟨by simp [run_autonomous_agent, hl, hsum, hc],
              "Unexpected error: " ++ m, ?_⟩
            simp [run_autonomous_agent, hl, hsum, hc]
          | ok p =>
            rw [hc] at h
            dsimp only at h
            cases l with
            | completes => simp at h
            | interrupted => simp at h
            | raisesError m =>
              refine ⟨by simp [run_autonomous_agent, hl, hsum, hc],
                "Unexpected error: " ++ m, ?_⟩
              simp [run_autonomous_agent, hl, hsum, hc]
  · intro h
    simp only [pdfCaughtError, Bool.and_eq_true] at h
    obtain ⟨hd, h⟩ := h
    cases hk : effectiveApiKey envP with
    | none => rw [hk] at h; simp at h
    | some key =>
      rw [hk] at h
      dsimp only at h
      cases hb : get_chapter_boundaries envP.modelResponse with
      | error e =>
        refine ⟨by simp [pdf_main, hd, hk, hb], e, ?_⟩
        simp [pdf_main, hd, hk, hb]
      | ok chapters =>
        rw [hb] at h
        dsimp only at h
        cases htr : pyTruthy chapters with
        | false => rw [if_pos htr] at h; simp at h
        | true =>
          rw [if_neg (by simp [htr])] at h
          cases hlen : pyLen chapters with
          | error e => rw [hlen] at h; simp at h
          | ok nch =>
            rw [hlen] at h
            dsimp only at h
            cases hit : pyIter chapters with
            | error e => rw [hit] at h; simp at h
            | ok chlist =>
              rw [hit] at h
              dsimp only at h
              cases hfs : foundSummary chlist with
              | error e => rw [hfs] at h; simp at h
              | ok lines =>
                rw [hfs] at h
                dsimp only at h
                cases hsp : (split_pdf envP.srcPages chlist).2 with
                | none => rw [hsp] at h; simp at h
                | some e =>
                  refine ⟨?_, e, ?_⟩
                  · simp [pdf_main, hd, hk, hb, htr, hlen, hit, hfs, hsp]
                  · simp [pdf_main, hd, hk, hb, htr, hlen, hit, hfs, hsp]

/-- Environment for the PDF script in which the chapter-detection call
raises and the error is caught by the first try/except block. -/
def pdfEnvC : PdfEnv := PdfEnv.mk true (some "k") none (.error "boom") []

/-- C4 counterexample: an error caught at the top level of the PDF script
exits with code 1 but produces no output on standard error at all — every
print of that run, the error report included, goes to standard output. -/
theorem pdf_error_report_on_stdout_counterexample :
    pdfCaughtError pdfEnvC = true
    ∧ (pdf_main pdfEnvC).2.1 = 1
    ∧ ((pdf_main pdfEnvC).1.all (fun ev => ev.1 == StdStream.stdout)) = true :=
  ⟨rfl, rfl, rfl⟩

/-- Environment for the agent in which the tasks file is missing and the
`FileNotFoundError` is caught. -/
def agentEnvW : AgentEnv := AgentEnv.mk true .missing .missing (.connected .completes)

/-- Witness for the amended C4: a caught agent error lands on standard
error with exit 1, and a caught PDF-script error lands on standard output
with exit 1. -/
theorem caught_errors_reported_witness :
    ((run_autonomous_agent agentEnvW).2 = 1
      ∧ ∃ m, (StdStream.stderr, m) ∈ (run_autonomous_agent agentEnvW).1)
    ∧ ((pdf_main pdfEnvC).2.1 = 1
      ∧ ∃ m, (StdStream.stdout, "Error: " ++ m) ∈ (pdf_main pdfEnvC).1) :=
  ⟨(caught_errors_reported agentEnvW pdfEnvC).1 rfl,
   (caught_errors_reported agentEnvW pdfEnvC).2 rfl⟩

end AiProof
